import Mathlib

/-!
# NUS-SmartStop: verification of the edge-node firmware logic

Shallow embedding of the decision logic of the NUS-SmartStop ESP32
firmware sketches, together with proofs of the behavioural properties
stated in the project specification.

Embedded code (faithful to the sources):
* `src/esp32/cs3237irmiccombined.ino` — `IRTask` (queue-driven two-door
  people counter with debounce/cooldown) and `VoiceTask` (voice-activity
  hysteresis);
* `src/esp32/esp32_ir_people_counter.ino` (second sketch in the file) —
  the mic-only voice-activity loop with 2-of-3 voting;
* the integrated-sensors sketch (`loopMicrophone`, `loopIRSensors`,
  `mqttCallback`, `playAudio`, `readUltrasonicSensor`);
* `src/esp32/ultrasonic_sensors/ultrasonic_sensors.ino` — calibration,
  moving average, occupancy and density;
* the LCD/speaker/servo actuator sketch — `handleAudioLogic` and the
  full-capacity transition of `startPredictionRequest`;
* `src/esp32/smartstop_main.ino` — `mqtt_callback`;
* `src/esp32/cs3237speaker.ino` — the audio-file selection switch.

Modelling conventions:
* `millis()` timestamps are `uint32_t` values, modelled as `Nat`; the
  firmware's wrap-around subtractions `now - then` on `uint32_t` are
  modelled by `usub`;
* C `double`/`float` feature values and thresholds are modelled as `ℚ`,
  with the decimal constants of the source taken exactly;
* `int32_t`/`float` people counts are modelled as `Int`/`ℚ` (the count
  stays far below any overflow bound on every realistic trace, and the
  sources' own floor-at-zero logic is kept verbatim);
* hardware reads (queue receive, `digitalRead`, `i2s_read`, `pulseIn`)
  become explicit inputs of the step functions.
-/

/-! ## uint32 arithmetic -/

/-- `2^32`, the modulus of `uint32_t` arithmetic. -/
def U32 : Nat := 4294967296

/-- Wrap-around subtraction `a - b` on `uint32_t`, as performed by the
firmware on `millis()` timestamps. -/
def usub (a b : Nat) : Nat := ((a % U32) + U32 - (b % U32)) % U32

/-! ## IR people counter (`IRTask` of `cs3237irmiccombined.ino`)

The ISR pushes `IrEdgeEvent { sensor; t_ms }` records into a queue; the
task drains it and runs the two-door logic with debounce, the sequence
window, and a cooldown after each successful count.  Between receives it
clears stale half-sequences (the timeout rule). -/

/-- `IrEdgeEvent` of the source: which receiver fired (`'A'`..`'D'`) and
the `millis()` timestamp captured in the ISR. -/
structure IrEdgeEvent where
  sensor : Char
  t_ms : Nat
  deriving Repr, DecidableEq

/-- The mutable state read and written by `IRTask`: the shared people
count, the pending half-sequence timestamps `t{A,B,C,D}_fall_ms`
(0 = no pending edge), the per-beam debounce timestamps `last{A,B,C,D}_ms`
and the per-door cooldown timestamps `lastCountTime{1,2}`. -/
structure IrTaskState where
  peopleCount : Int
  tA : Nat
  tB : Nat
  tC : Nat
  tD : Nat
  lastA : Nat
  lastB : Nat
  lastC : Nat
  lastD : Nat
  lastCountTime1 : Nat
  lastCountTime2 : Nat
  deriving Repr, DecidableEq

/-- `SEQ_WINDOW = 1000` ms. -/
def SEQ_WINDOW : Nat := 1000

/-- `DEBOUNCE_MS = 50` ms. -/
def DEBOUNCE_MS : Nat := 50

/-- `COUNT_COOLDOWN = 1500` ms. -/
def COUNT_COOLDOWN : Nat := 1500

/-- The boot state: all globals zero-initialised, `peopleCount = 0`. -/
def irInit : IrTaskState :=
  { peopleCount := 0, tA := 0, tB := 0, tC := 0, tD := 0,
    lastA := 0, lastB := 0, lastC := 0, lastD := 0,
    lastCountTime1 := 0, lastCountTime2 := 0 }

/-- One queue event processed by the body of `IRTask`'s
`xQueueReceive` branch (lines 180–267 of `cs3237irmiccombined.ino`).
The `if (peopleCount < 0) peopleCount = 0` floor of the source is kept
verbatim. -/
def stepEvent (s : IrTaskState) (e : IrEdgeEvent) : IrTaskState :=
  let now := e.t_ms
  if e.sensor = 'A' ∨ e.sensor = 'B' then
    -- Door 1: cooldown check first, clearing the sequence triggers
    if usub now s.lastCountTime1 < COUNT_COOLDOWN then
      { s with tA := 0, tB := 0 }
    else if e.sensor = 'A' then
      if usub now s.lastA < DEBOUNCE_MS then s
      else
        -- lastA_ms = now; tA_fall_ms = now; then the exit check B -> A
        if s.tB ≠ 0 ∧ s.tB ≤ now ∧ now - s.tB ≤ SEQ_WINDOW then
          let c := s.peopleCount - 1
          { s with peopleCount := if c < 0 then 0 else c,
                   lastA := now, lastCountTime1 := now, tA := 0, tB := 0 }
        else { s with lastA := now, tA := now }
    else
      if usub now s.lastB < DEBOUNCE_MS then s
      else
        -- lastB_ms = now; tB_fall_ms = now; then the entry check A -> B
        if s.tA ≠ 0 ∧ s.tA ≤ now ∧ now - s.tA ≤ SEQ_WINDOW then
          { s with peopleCount := s.peopleCount + 1,
                   lastB := now, lastCountTime1 := now, tA := 0, tB := 0 }
        else { s with lastB := now, tB := now }
  else if e.sensor = 'C' ∨ e.sensor = 'D' then
    -- Door 2: identical logic on C/D with lastCountTime2
    if usub now s.lastCountTime2 < COUNT_COOLDOWN then
      { s with tC := 0, tD := 0 }
    else if e.sensor = 'C' then
      if usub now s.lastC < DEBOUNCE_MS then s
      else
        if s.tD ≠ 0 ∧ s.tD ≤ now ∧ now - s.tD ≤ SEQ_WINDOW then
          let c := s.peopleCount - 1
          { s with peopleCount := if c < 0 then 0 else c,
                   lastC := now, lastCountTime2 := now, tC := 0, tD := 0 }
        else { s with lastC := now, tC := now }
    else
      if usub now s.lastD < DEBOUNCE_MS then s
      else
        if s.tC ≠ 0 ∧ s.tC ≤ now ∧ now - s.tC ≤ SEQ_WINDOW then
          { s with peopleCount := s.peopleCount + 1,
                   lastD := now, lastCountTime2 := now, tC := 0, tD := 0 }
        else { s with lastD := now, tD := now }
  else s

/-- The stale-trigger cleanup run at the bottom of every `IRTask`
iteration (lines 269–274): a pending half-sequence older than
`SEQ_WINDOW` is cleared without touching the count. -/
def cleanupStale (s : IrTaskState) (now2 : Nat) : IrTaskState :=
  let s1 := if s.tA ≠ 0 ∧ SEQ_WINDOW < usub now2 s.tA then { s with tA := 0 } else s
  let s2 := if s1.tB ≠ 0 ∧ SEQ_WINDOW < usub now2 s1.tB then { s1 with tB := 0 } else s1
  let s3 := if s2.tC ≠ 0 ∧ SEQ_WINDOW < usub now2 s2.tC then { s2 with tC := 0 } else s2
  if s3.tD ≠ 0 ∧ SEQ_WINDOW < usub now2 s3.tD then { s3 with tD := 0 } else s3

/-- One iteration of the `IRTask` loop: either a queue event is received
and processed, or the receive times out; in both cases the stale-trigger
cleanup then runs at some current time. -/
inductive IrStep where
  | edge (e : IrEdgeEvent)
  | timeout (now2 : Nat)
  deriving Repr, DecidableEq

/-- Dispatch one `IrStep`. -/
def irStep (s : IrTaskState) : IrStep → IrTaskState
  | .edge e => stepEvent s e
  | .timeout n => cleanupStale s n

/-- Run `IRTask` over a whole sequence of loop iterations. -/
def irRun (s : IrTaskState) (l : List IrStep) : IrTaskState :=
  l.foldl irStep s

-- quick sanity checks of the embedding on concrete traces
example :
    (irRun irInit [.edge ⟨'A', 2000⟩, .edge ⟨'B', 2400⟩]).peopleCount = 1 := by
  decide

example :
    (irRun irInit [.edge ⟨'B', 2000⟩, .edge ⟨'A', 2400⟩]).peopleCount = 0 := by
  decide

example :
    (irRun irInit [.edge ⟨'A', 2000⟩, .timeout 3500,
      .edge ⟨'B', 3600⟩]).peopleCount = 0 := by
  decide

/-! ### Branch conditions of `IRTask`, as positive predicates -/

/-- Door 1 entry: a `'B'` edge completing a pending `A → B` sequence —
door 1 not in cooldown, beam B not debounced, a pending A edge recorded,
and this B edge at or after it within `SEQ_WINDOW`. -/
def entrySeq1 (s : IrTaskState) (e : IrEdgeEvent) : Prop :=
  e.sensor = 'B' ∧ COUNT_COOLDOWN ≤ usub e.t_ms s.lastCountTime1 ∧
  DEBOUNCE_MS ≤ usub e.t_ms s.lastB ∧
  0 < s.tA ∧ s.tA ≤ e.t_ms ∧ e.t_ms - s.tA ≤ SEQ_WINDOW

/-- Door 1 exit: an `'A'` edge completing a pending `B → A` sequence. -/
def exitSeq1 (s : IrTaskState) (e : IrEdgeEvent) : Prop :=
  e.sensor = 'A' ∧ COUNT_COOLDOWN ≤ usub e.t_ms s.lastCountTime1 ∧
  DEBOUNCE_MS ≤ usub e.t_ms s.lastA ∧
  0 < s.tB ∧ s.tB ≤ e.t_ms ∧ e.t_ms - s.tB ≤ SEQ_WINDOW

/-- Door 2 entry: a `'D'` edge completing a pending `C → D` sequence. -/
def entrySeq2 (s : IrTaskState) (e : IrEdgeEvent) : Prop :=
  e.sensor = 'D' ∧ COUNT_COOLDOWN ≤ usub e.t_ms s.lastCountTime2 ∧
  DEBOUNCE_MS ≤ usub e.t_ms s.lastD ∧
  0 < s.tC ∧ s.tC ≤ e.t_ms ∧ e.t_ms - s.tC ≤ SEQ_WINDOW

/-- Door 2 exit: a `'C'` edge completing a pending `D → C` sequence. -/
def exitSeq2 (s : IrTaskState) (e : IrEdgeEvent) : Prop :=
  e.sensor = 'C' ∧ COUNT_COOLDOWN ≤ usub e.t_ms s.lastCountTime2 ∧
  DEBOUNCE_MS ≤ usub e.t_ms s.lastC ∧
  0 < s.tD ∧ s.tD ≤ e.t_ms ∧ e.t_ms - s.tD ≤ SEQ_WINDOW

/-! ### Helper lemmas on the IR step -/

instance (s : IrTaskState) (e : IrEdgeEvent) : Decidable (entrySeq1 s e) := by
  unfold entrySeq1; infer_instance

instance (s : IrTaskState) (e : IrEdgeEvent) : Decidable (exitSeq1 s e) := by
  unfold exitSeq1; infer_instance

instance (s : IrTaskState) (e : IrEdgeEvent) : Decidable (entrySeq2 s e) := by
  unfold entrySeq2; infer_instance

instance (s : IrTaskState) (e : IrEdgeEvent) : Decidable (exitSeq2 s e) := by
  unfold exitSeq2; infer_instance

/-- The people count after one queue event, as a function of the four
complete-sequence conditions: `+1` on a completed entry, decrement
floored at 0 on a completed exit, unchanged otherwise. -/
theorem stepEvent_count_eq (s : IrTaskState) (e : IrEdgeEvent) :
    (stepEvent s e).peopleCount =
      if entrySeq1 s e ∨ entrySeq2 s e then s.peopleCount + 1
      else if exitSeq1 s e ∨ exitSeq2 s e then
        (if s.peopleCount - 1 < 0 then 0 else s.peopleCount - 1)
      else s.peopleCount := by
  by_cases hA : e.sensor = 'A' <;> by_cases hB : e.sensor = 'B' <;>
    by_cases hC : e.sensor = 'C' <;> by_cases hD : e.sensor = 'D' <;>
    simp_all [stepEvent, entrySeq1, entrySeq2, exitSeq1, exitSeq2] <;>
    split_ifs <;> simp_all <;> omega

/-- The stale-trigger cleanup never changes the people count. -/
theorem cleanupStale_count (s : IrTaskState) (n : Nat) :
    (cleanupStale s n).peopleCount = s.peopleCount := by
  simp only [cleanupStale]
  split_ifs <;> rfl

/-- The cleanup clears exactly the pending half-sequences whose age
exceeds `SEQ_WINDOW`, returning them to the idle (0) state. -/
theorem cleanupStale_pending (s : IrTaskState) (n : Nat) :
    (cleanupStale s n).tA
        = (if s.tA ≠ 0 ∧ SEQ_WINDOW < usub n s.tA then 0 else s.tA) ∧
    (cleanupStale s n).tB
        = (if s.tB ≠ 0 ∧ SEQ_WINDOW < usub n s.tB then 0 else s.tB) ∧
    (cleanupStale s n).tC
        = (if s.tC ≠ 0 ∧ SEQ_WINDOW < usub n s.tC then 0 else s.tC) ∧
    (cleanupStale s n).tD
        = (if s.tD ≠ 0 ∧ SEQ_WINDOW < usub n s.tD then 0 else s.tD) := by
  simp only [cleanupStale]
  split_ifs <;> simp_all

/-- One `IRTask` iteration keeps the count non-negative. -/
theorem irStep_nonneg (s : IrTaskState) (i : IrStep) :
    0 ≤ s.peopleCount → 0 ≤ (irStep s i).peopleCount := by
  intro h
  cases i with
  | edge e =>
      have := stepEvent_count_eq s e
      simp only [irStep] at *
      rw [this]
      split_ifs <;> omega
  | timeout n =>
      simpa only [irStep, cleanupStale_count] using h

/-- Running any list of iterations keeps the count non-negative. -/
theorem irRun_nonneg (s : IrTaskState) (l : List IrStep) :
    0 ≤ s.peopleCount → 0 ≤ (irRun s l).peopleCount := by
  induction l generalizing s with
  | nil => exact fun h => h
  | cons i l ih =>
      intro h
      exact ih (irStep s i) (irStep_nonneg s i h)

/-! ### The polling state-machine variant (`loopIRSensors`)

The integrated sketch counts with a non-blocking three-state machine
polled on pin levels: `IR_IDLE` arms on a falling edge of A or B;
`IR_WAIT_A_FOR_B` counts an entry as soon as B reads LOW, else returns
to idle once the sequence window has elapsed; `IR_WAIT_B_FOR_A` counts
an exit (floored at 0) symmetrically.  Pin levels are `true` = HIGH.
The trailing debounce guard assigns `lastIrA`/`lastIrB` on both of its
paths, so the assignment is modelled unconditionally. -/

/-- `enum IrState` of the integrated sketch. -/
inductive IrState where
  | IR_IDLE
  | IR_WAIT_A_FOR_B
  | IR_WAIT_B_FOR_A
  deriving Repr, DecidableEq

/-- `sequenceWindow = 1000` ms (integrated sketch). -/
def sequenceWindow : Nat := 1000

/-- The state read and written by `loopIRSensors`: the phase, its start
time, the previous pin levels, and the (float) people count. -/
structure IrLoopState where
  irState : IrState
  irStateStartTime : Nat
  lastIrA : Bool
  lastIrB : Bool
  peopleCount : ℚ
  deriving Repr, DecidableEq

/-- One iteration of `loopIRSensors` (lines 776–840 of the integrated
sketch), with the sampled pin levels and `millis()` as inputs. -/
def loopIRSensors (st : IrLoopState) (currA currB : Bool) (now : Nat) :
    IrLoopState :=
  let st1 :=
    match st.irState with
    | .IR_IDLE =>
        if st.lastIrA = true ∧ currA = false then
          { st with irState := .IR_WAIT_A_FOR_B, irStateStartTime := now }
        else if st.lastIrB = true ∧ currB = false then
          { st with irState := .IR_WAIT_B_FOR_A, irStateStartTime := now }
        else st
    | .IR_WAIT_A_FOR_B =>
        if currB = false then
          { st with peopleCount := st.peopleCount + 1,
                    irState := .IR_IDLE, irStateStartTime := now }
        else if sequenceWindow < usub now st.irStateStartTime then
          { st with irState := .IR_IDLE }
        else st
    | .IR_WAIT_B_FOR_A =>
        if currA = false then
          let c := st.peopleCount - 1
          { st with peopleCount := if c < 0 then 0 else c,
                    irState := .IR_IDLE, irStateStartTime := now }
        else if sequenceWindow < usub now st.irStateStartTime then
          { st with irState := .IR_IDLE }
        else st
  { st1 with lastIrA := currA, lastIrB := currB }

/-- The count after one `loopIRSensors` iteration: `+1` when a pending
entry sequence sees B low, decrement floored at 0 when a pending exit
sequence sees A low, unchanged in every other case (arming, timeout to
idle, idle). -/
theorem loopIRSensors_count_eq (st : IrLoopState) (currA currB : Bool) (now : Nat) :
    (loopIRSensors st currA currB now).peopleCount =
      if st.irState = IrState.IR_WAIT_A_FOR_B ∧ currB = false then
        st.peopleCount + 1
      else if st.irState = IrState.IR_WAIT_B_FOR_A ∧ currA = false then
        (if st.peopleCount - 1 < 0 then 0 else st.peopleCount - 1)
      else st.peopleCount := by
  cases h : st.irState <;>
    simp only [loopIRSensors, h] <;>
    split_ifs <;> simp_all

/-- **C1.** For every sequence of IR loop iterations (queue events or
receive timeouts) the shared `peopleCount` stays a non-negative integer
after every step: starting from any state with a non-negative count,
every prefix of the run has a non-negative count; a completed exit
sequence at count 0 leaves the count at exactly 0 (the decrement is
floored); the stale-sequence timeout never changes the count; and the
integrated sketch's polling variant `loopIRSensors` likewise keeps its
count non-negative with the same floor at zero on exits. -/
theorem peopleCount_nonneg_invariant :
    (∀ (s : IrTaskState) (l : List IrStep) (n : Nat),
        0 ≤ s.peopleCount → 0 ≤ (irRun s (l.take n)).peopleCount) ∧
    (∀ (s : IrTaskState) (e : IrEdgeEvent),
        s.peopleCount = 0 → (exitSeq1 s e ∨ exitSeq2 s e) →
        (stepEvent s e).peopleCount = 0) ∧
    (∀ (s : IrTaskState) (n : Nat),
        (cleanupStale s n).peopleCount = s.peopleCount) ∧
    (∀ (st : IrLoopState) (currA currB : Bool) (now : Nat),
        0 ≤ st.peopleCount →
        0 ≤ (loopIRSensors st currA currB now).peopleCount) ∧
    (∀ (st : IrLoopState) (currA currB : Bool) (now : Nat),
        st.peopleCount = 0 →
        (loopIRSensors st currA currB now).peopleCount = 0 ∨
        (loopIRSensors st currA currB now).peopleCount = 1) := by
  refine ⟨fun s l n h => irRun_nonneg s (l.take n) h, fun s e h0 hx => ?_,
    cleanupStale_count, fun st a b n h => ?_, fun st a b n h0 => ?_⟩
  · rw [stepEvent_count_eq]
    have hne : ¬ (entrySeq1 s e ∨ entrySeq2 s e) := by
      have hsx : e.sensor = 'A' ∨ e.sensor = 'C' := by
        rcases hx with ⟨h, -⟩ | ⟨h, -⟩
        · exact Or.inl h
        · exact Or.inr h
      rintro (⟨h, -⟩ | ⟨h, -⟩) <;> rcases hsx with h' | h' <;> simp_all
    rw [if_neg hne, if_pos hx, h0]
    decide
  · rw [loopIRSensors_count_eq]
    split_ifs <;> linarith
  · rw [loopIRSensors_count_eq]
    split_ifs with h1 h2 h3
    · right
      rw [h0]
      norm_num
    · left
      rfl
    · exfalso
      rw [h0] at h3
      norm_num at h3
    · left
      exact h0

/-- Witness for C1 at a concrete trace: an exit pair from the boot state
(count 0) leaves the count at 0 and non-negative. -/
theorem peopleCount_nonneg_invariant_witness :
    0 ≤ (irRun irInit ([IrStep.edge ⟨'B', 2000⟩, IrStep.edge ⟨'A', 2100⟩].take 2)).peopleCount ∧
    (stepEvent { irInit with tB := 2000 } ⟨'A', 2100⟩).peopleCount = 0 :=
  ⟨peopleCount_nonneg_invariant.1 irInit [IrStep.edge ⟨'B', 2000⟩, IrStep.edge ⟨'A', 2100⟩] 2
      (by decide),
   peopleCount_nonneg_invariant.2.1 { irInit with tB := 2000 } ⟨'A', 2100⟩ (by decide)
      (Or.inl (by decide))⟩

/-- **C2.** The people count changes only at complete, correctly ordered
same-gate sequences within `SEQ_WINDOW`: a completed `A → B` (resp.
`C → D`) entry adds exactly 1, a completed `B → A` (resp. `D → C`) exit
subtracts exactly 1 floored at 0, every other event leaves the count
unchanged; the timeout cleanup returns lone stale half-sequences to idle
without ever changing the count; and in the polling variant
`loopIRSensors` the count likewise changes only when a pending
half-sequence is completed by the complementary beam (±1, floored), a
pending half-sequence whose complementary beam stays clear past
`sequenceWindow` returning to idle with the count unchanged. -/
theorem ir_count_change_characterisation :
    (∀ (s : IrTaskState) (e : IrEdgeEvent),
        (stepEvent s e).peopleCount =
          if entrySeq1 s e ∨ entrySeq2 s e then s.peopleCount + 1
          else if exitSeq1 s e ∨ exitSeq2 s e then
            (if s.peopleCount - 1 < 0 then 0 else s.peopleCount - 1)
          else s.peopleCount) ∧
    (∀ (s : IrTaskState) (n : Nat),
        (cleanupStale s n).peopleCount = s.peopleCount) ∧
    (∀ (s : IrTaskState) (n : Nat),
        (cleanupStale s n).tA
            = (if s.tA ≠ 0 ∧ SEQ_WINDOW < usub n s.tA then 0 else s.tA) ∧
        (cleanupStale s n).tB
            = (if s.tB ≠ 0 ∧ SEQ_WINDOW < usub n s.tB then 0 else s.tB) ∧
        (cleanupStale s n).tC
            = (if s.tC ≠ 0 ∧ SEQ_WINDOW < usub n s.tC then 0 else s.tC) ∧
        (cleanupStale s n).tD
            = (if s.tD ≠ 0 ∧ SEQ_WINDOW < usub n s.tD then 0 else s.tD)) ∧
    (∀ (st : IrLoopState) (currA currB : Bool) (now : Nat),
        (loopIRSensors st currA currB now).peopleCount =
          if st.irState = IrState.IR_WAIT_A_FOR_B ∧ currB = false then
            st.peopleCount + 1
          else if st.irState = IrState.IR_WAIT_B_FOR_A ∧ currA = false then
            (if st.peopleCount - 1 < 0 then 0 else st.peopleCount - 1)
          else st.peopleCount) ∧
    (∀ (st : IrLoopState) (currA currB : Bool) (now : Nat),
        st.irState = IrState.IR_WAIT_A_FOR_B → currB = true →
        sequenceWindow < usub now st.irStateStartTime →
        (loopIRSensors st currA currB now).irState = IrState.IR_IDLE) ∧
    (∀ (st : IrLoopState) (currA currB : Bool) (now : Nat),
        st.irState = IrState.IR_WAIT_B_FOR_A → currA = true →
        sequenceWindow < usub now st.irStateStartTime →
        (loopIRSensors st currA currB now).irState = IrState.IR_IDLE) := by
  refine ⟨stepEvent_count_eq, cleanupStale_count, cleanupStale_pending,
    loopIRSensors_count_eq, fun st a b now hst hb hw => ?_,
    fun st a b now hst ha hw => ?_⟩
  · simp [loopIRSensors, hst, hb, hw]
  · simp [loopIRSensors, hst, ha, hw]

/-- Witness for C2 at concrete inputs: a completed entry pair increments
by exactly one, a lone `'A'` edge stale for more than the window is
cleared by the cleanup with the count untouched, and a polled pending
entry whose B beam stays clear past the window drops back to idle. -/
theorem ir_count_change_characterisation_witness :
    (stepEvent { irInit with tA := 2000 } ⟨'B', 2500⟩).peopleCount
        = irInit.peopleCount + 1 ∧
    (cleanupStale { irInit with tA := 2000 } 3500).tA = 0 ∧
    (cleanupStale { irInit with tA := 2000 } 3500).peopleCount = 0 ∧
    (loopIRSensors ⟨IrState.IR_WAIT_A_FOR_B, 2000, false, true, 5⟩
        true true 3500).irState = IrState.IR_IDLE := by
  refine ⟨?_, ?_, ?_, ?_⟩
  · rw [ir_count_change_characterisation.1 { irInit with tA := 2000 } ⟨'B', 2500⟩]
    decide
  · rw [(ir_count_change_characterisation.2.2.1 { irInit with tA := 2000 } 3500).1]
    decide
  · rw [ir_count_change_characterisation.2.1 { irInit with tA := 2000 } 3500]
    decide
  · exact ir_count_change_characterisation.2.2.2.2.1
      ⟨IrState.IR_WAIT_A_FOR_B, 2000, false, true, 5⟩ true true 3500 rfl rfl
      (by decide)

/-! ### Cooldown lemmas -/

/-- During door 1's cooldown, any `'A'`/`'B'` event is ignored except
that it clears the pending half-sequence triggers. -/
theorem stepEvent_cooldown1 (s : IrTaskState) (e : IrEdgeEvent)
    (hs : e.sensor = 'A' ∨ e.sensor = 'B')
    (hc : usub e.t_ms s.lastCountTime1 < COUNT_COOLDOWN) :
    stepEvent s e = { s with tA := 0, tB := 0 } := by
  rcases hs with h | h <;> simp [stepEvent, h, hc]

/-- During door 2's cooldown, any `'C'`/`'D'` event is ignored except
that it clears the pending half-sequence triggers. -/
theorem stepEvent_cooldown2 (s : IrTaskState) (e : IrEdgeEvent)
    (hs : e.sensor = 'C' ∨ e.sensor = 'D')
    (hc : usub e.t_ms s.lastCountTime2 < COUNT_COOLDOWN) :
    stepEvent s e = { s with tC := 0, tD := 0 } := by
  rcases hs with h | h <;> simp [stepEvent, h, hc]

/-- A successful count on door 1 stamps the cooldown timer with the
event's timestamp. -/
theorem stepEvent_stamp1 (s : IrTaskState) (e : IrEdgeEvent)
    (h : entrySeq1 s e ∨ exitSeq1 s e) :
    (stepEvent s e).lastCountTime1 = e.t_ms := by
  rcases h with ⟨hs, h1, h2, h3, h4, h5⟩ | ⟨hs, h1, h2, h3, h4, h5⟩ <;>
    (have h3' : _ ≠ 0 := Nat.pos_iff_ne_zero.mp h3;
     simp [stepEvent, hs, h3', h4, h5, Nat.not_lt.mpr h1, Nat.not_lt.mpr h2])

/-- A successful count on door 2 stamps the cooldown timer with the
event's timestamp. -/
theorem stepEvent_stamp2 (s : IrTaskState) (e : IrEdgeEvent)
    (h : entrySeq2 s e ∨ exitSeq2 s e) :
    (stepEvent s e).lastCountTime2 = e.t_ms := by
  rcases h with ⟨hs, h1, h2, h3, h4, h5⟩ | ⟨hs, h1, h2, h3, h4, h5⟩ <;>
    (have h3' : _ ≠ 0 := Nat.pos_iff_ne_zero.mp h3;
     simp [stepEvent, hs, h3', h4, h5, Nat.not_lt.mpr h1, Nat.not_lt.mpr h2])

/-- A whole list of door-1 events falling inside door 1's cooldown
leaves the count, the cooldown stamp, and (if the list is nonempty) the
cleared triggers unchanged. -/
theorem foldl_cooldown1 (s : IrTaskState) (l : List IrEdgeEvent)
    (h : ∀ e ∈ l, (e.sensor = 'A' ∨ e.sensor = 'B') ∧
        usub e.t_ms s.lastCountTime1 < COUNT_COOLDOWN) :
    (l.foldl stepEvent s).peopleCount = s.peopleCount ∧
    (l.foldl stepEvent s).lastCountTime1 = s.lastCountTime1 := by
  induction l generalizing s with
  | nil => exact ⟨rfl, rfl⟩
  | cons e t ih =>
      have h0 := h e (List.mem_cons_self e t)
      have hstep := stepEvent_cooldown1 s e h0.1 h0.2
      have ht : ∀ e' ∈ t, (e'.sensor = 'A' ∨ e'.sensor = 'B') ∧
          usub e'.t_ms (stepEvent s e).lastCountTime1 < COUNT_COOLDOWN := by
        intro e' he'
        rw [hstep]
        exact h e' (List.mem_cons_of_mem e he')
      have := ih (stepEvent s e) ht
      rw [List.foldl_cons]
      exact ⟨by rw [this.1, hstep], by rw [this.2, hstep]⟩

/-- **C4.** After a successful count on a gate (which stamps the gate's
cooldown timer with the event time), every further edge event on that
gate within `COUNT_COOLDOWN` is ignored — the step only clears the
pending half-sequence triggers — so an arbitrary burst of same-gate
events inside the cooldown changes neither the count nor the cooldown
stamp: the successful count is the at-most-one change. -/
theorem ir_cooldown_suppression :
    (∀ (s : IrTaskState) (e : IrEdgeEvent),
        (e.sensor = 'A' ∨ e.sensor = 'B') →
        usub e.t_ms s.lastCountTime1 < COUNT_COOLDOWN →
        stepEvent s e = { s with tA := 0, tB := 0 }) ∧
    (∀ (s : IrTaskState) (e : IrEdgeEvent),
        (e.sensor = 'C' ∨ e.sensor = 'D') →
        usub e.t_ms s.lastCountTime2 < COUNT_COOLDOWN →
        stepEvent s e = { s with tC := 0, tD := 0 }) ∧
    (∀ (s : IrTaskState) (e : IrEdgeEvent),
        entrySeq1 s e ∨ exitSeq1 s e → (stepEvent s e).lastCountTime1 = e.t_ms) ∧
    (∀ (s : IrTaskState) (e : IrEdgeEvent),
        entrySeq2 s e ∨ exitSeq2 s e → (stepEvent s e).lastCountTime2 = e.t_ms) ∧
    (∀ (s : IrTaskState) (l : List IrEdgeEvent),
        (∀ e ∈ l, (e.sensor = 'A' ∨ e.sensor = 'B') ∧
            usub e.t_ms s.lastCountTime1 < COUNT_COOLDOWN) →
        (l.foldl stepEvent s).peopleCount = s.peopleCount ∧
        (l.foldl stepEvent s).lastCountTime1 = s.lastCountTime1) :=
  ⟨stepEvent_cooldown1, stepEvent_cooldown2, stepEvent_stamp1, stepEvent_stamp2,
   foldl_cooldown1⟩

/-- Witness for C4: after a successful entry at t=2100 (count 1), a
would-be second entry pair at t=2200/2300 — inside the 1500 ms
cooldown — changes nothing. -/
theorem ir_cooldown_suppression_witness :
    (([⟨'A', 2200⟩, ⟨'B', 2300⟩] : List IrEdgeEvent).foldl stepEvent
        (irRun irInit [.edge ⟨'A', 2000⟩, .edge ⟨'B', 2100⟩])).peopleCount
      = (irRun irInit [.edge ⟨'A', 2000⟩, .edge ⟨'B', 2100⟩]).peopleCount ∧
    (irRun irInit [.edge ⟨'A', 2000⟩, .edge ⟨'B', 2100⟩]).peopleCount = 1 :=
  ⟨(ir_cooldown_suppression.2.2.2.2 _ [⟨'A', 2200⟩, ⟨'B', 2300⟩] (by decide)).1,
   by decide⟩

/-! ## Voice-activity detection

Three sketches implement the per-block decision and hysteresis:
* `VoiceTask` in `cs3237irmiccombined.ino` (N=512): its `onGate`
  requires **all three** feature thresholds; below the RMS floor it
  forces `voiceActive = false` and skips the gates, leaving the streak
  counters untouched;
* the mic-only sketch (second file of `esp32_ir_people_counter.ino`,
  N=1024): 2-of-3 `onVotes` voting with the RMS floor folded into both
  gates; the quiet branch does not return, so the hysteresis still runs
  on the block (and resets `upCnt` because `onGate` is false);
* `loopMicrophone` of the integrated sketch: same 2-of-3 gates, but the
  quiet branch returns early, leaving the streak counters untouched.

Features (`rms`, `ratio`, `voicingDb`, `sfm`) are the block's computed
values, taken as inputs here; `ratioEMA` is updated by the sources but
never read by any gate, so it is omitted from the state. -/

/-- `QUIET_RMS_MIN = 80000.0`. -/
def QUIET_RMS_MIN : ℚ := 80000

/-- `RATIO_ON = 0.60f`. -/
def RATIO_ON : ℚ := 0.60

/-- `RATIO_OFF = 0.50f`. -/
def RATIO_OFF : ℚ := 0.50

/-- `VOICING_ON_DB = 2.5f`. -/
def VOICING_ON_DB : ℚ := 2.5

/-- `VOICING_OFF_DB = 1.5f`. -/
def VOICING_OFF_DB : ℚ := 1.5

/-- `SFM_ON_MAX = 0.65f`. -/
def SFM_ON_MAX : ℚ := 0.65

/-- `SFM_OFF_MIN = 0.80f`. -/
def SFM_OFF_MIN : ℚ := 0.80

/-- `K_ON = 2`. -/
def K_ON : Nat := 2

/-- `K_OFF = 4`. -/
def K_OFF : Nat := 4

/-- The per-block audio features feeding the gates. -/
structure VoiceFeat where
  rms : ℚ
  ratio : ℚ
  voicingDb : ℚ
  sfm : ℚ

/-- The detector state: `voiceActive` and the two streak counters. -/
structure VoiceState where
  active : Bool
  upCnt : Nat
  downCnt : Nat
  deriving Repr, DecidableEq

/-- `VoiceTask`'s `onGate`: ALL three thresholds must pass
(`ratio >= RATIO_ON && voicingDb >= VOICING_ON_DB && sfm <= SFM_ON_MAX`). -/
def taskOnGate (f : VoiceFeat) : Bool :=
  decide (RATIO_ON ≤ f.ratio) && decide (VOICING_ON_DB ≤ f.voicingDb)
    && decide (f.sfm ≤ SFM_ON_MAX)

/-- `VoiceTask`'s `offGate`: any single looser threshold crossed. -/
def taskOffGate (f : VoiceFeat) : Bool :=
  decide (f.ratio ≤ RATIO_OFF) || decide (f.voicingDb ≤ VOICING_OFF_DB)
    || decide (SFM_OFF_MIN ≤ f.sfm)

/-- `onVotes` of the 2-of-3 variants: how many of the three "on"
thresholds pass. -/
def onVotes (f : VoiceFeat) : Nat :=
  (if RATIO_ON ≤ f.ratio then 1 else 0) +
  (if VOICING_ON_DB ≤ f.voicingDb then 1 else 0) +
  (if f.sfm ≤ SFM_ON_MAX then 1 else 0)

/-- 2-of-3 `onGate` (`onVotes >= 2 && rms >= QUIET_RMS_MIN`), as in the
mic-only sketch and `loopMicrophone`. -/
def micOnGate (f : VoiceFeat) : Bool :=
  decide (2 ≤ onVotes f) && decide (QUIET_RMS_MIN ≤ f.rms)

/-- 2-of-3 variants' `offGate`: any single looser threshold crossed, or
the block below the RMS floor. -/
def micOffGate (f : VoiceFeat) : Bool :=
  decide (f.ratio ≤ RATIO_OFF) || decide (f.voicingDb ≤ VOICING_OFF_DB)
    || decide (SFM_OFF_MIN ≤ f.sfm) || decide (f.rms < QUIET_RMS_MIN)

/-- The `K_ON`/`K_OFF` streak update, textually identical in the three
sketches (`if(!voiceActive){ if(onGate){ if(++upCnt>=K_ON){...} } else
upCnt=0; } else { ... }`). -/
def hysteresisUpdate (s : VoiceState) (onGate offGate : Bool) : VoiceState :=
  if s.active = false then
    if onGate then
      (if K_ON ≤ s.upCnt + 1 then { active := true, upCnt := s.upCnt + 1, downCnt := 0 }
       else { s with upCnt := s.upCnt + 1 })
    else { s with upCnt := 0 }
  else
    if offGate then
      (if K_OFF ≤ s.downCnt + 1 then { active := false, upCnt := 0, downCnt := s.downCnt + 1 }
       else { s with downCnt := s.downCnt + 1 })
    else { s with downCnt := 0 }

/-- One audio block through `VoiceTask` (lines 311–347 of
`cs3237irmiccombined.ino`): below the floor, force inactive and skip the
gates; otherwise gate with the all-three `onGate`. -/
def voiceTaskStep (s : VoiceState) (f : VoiceFeat) : VoiceState :=
  if f.rms < QUIET_RMS_MIN then { s with active := false }
  else hysteresisUpdate s (taskOnGate f) (taskOffGate f)

/-- One audio block through the mic-only sketch's `loop` (lines 284–332
of the second sketch in `esp32_ir_people_counter.ino`): the quiet branch
forces inactive (and zeroes `upCnt` if it was active) but does NOT
return, so the hysteresis still runs with both gates seeing the
sub-floor `rms`. -/
def micSketchStep (s : VoiceState) (f : VoiceFeat) : VoiceState :=
  let s1 := if f.rms < QUIET_RMS_MIN then
      (if s.active then { s with active := false, upCnt := 0 } else s)
    else s
  hysteresisUpdate s1 (micOnGate f) (micOffGate f)

/-- One audio block through `loopMicrophone` of the integrated sketch:
the quiet branch forces inactive (zeroing `upCnt` if it was active) and
returns early, leaving the streak counters otherwise untouched. -/
def loopMicrophoneStep (s : VoiceState) (f : VoiceFeat) : VoiceState :=
  if f.rms < QUIET_RMS_MIN then
    (if s.active then { s with active := false, upCnt := 0 } else s)
  else hysteresisUpdate s (micOnGate f) (micOffGate f)

/-- Modelled from the spec: "an on decision requires at least two of
three feature thresholds to agree (ratio, voicing, flatness)". -/
def atLeastTwoOn (f : VoiceFeat) : Prop :=
  (RATIO_ON ≤ f.ratio ∧ VOICING_ON_DB ≤ f.voicingDb) ∨
  (RATIO_ON ≤ f.ratio ∧ f.sfm ≤ SFM_ON_MAX) ∨
  (VOICING_ON_DB ≤ f.voicingDb ∧ f.sfm ≤ SFM_ON_MAX)

-- sanity: the 2-of-3 gate accepts two agreeing features, the all-three
-- VoiceTask gate does not
example : micOnGate ⟨100000, 0.7, 3, 0.7⟩ = true := by
  norm_num [micOnGate, onVotes, RATIO_ON, VOICING_ON_DB, SFM_ON_MAX, QUIET_RMS_MIN]

example : taskOnGate ⟨100000, 0.7, 3, 0.7⟩ = false := by
  norm_num [taskOnGate, RATIO_ON, VOICING_ON_DB, SFM_ON_MAX]

/-- Counterexample to C3 as stated: the block with `rms = 100000`,
`ratio = 0.7`, `voicingDb = 3`, `sfm = 0.7` is at the noise floor or
above and satisfies two of the three "on" thresholds (ratio and
voicing), yet `VoiceTask`'s on decision — one of the claim's cited
detectors — is false, and from one on-block short of activation the
detector stays inactive on it. -/
theorem voice_two_of_three_counterexample :
    QUIET_RMS_MIN ≤ (VoiceFeat.mk 100000 0.7 3 0.7).rms ∧
    atLeastTwoOn (VoiceFeat.mk 100000 0.7 3 0.7) ∧
    taskOnGate (VoiceFeat.mk 100000 0.7 3 0.7) = false ∧
    (voiceTaskStep ⟨false, K_ON - 1, 0⟩ (VoiceFeat.mk 100000 0.7 3 0.7)).active = false := by
  refine ⟨by norm_num [QUIET_RMS_MIN], Or.inl ⟨?_, ?_⟩, ?_, ?_⟩ <;>
    norm_num [taskOnGate, voiceTaskStep, hysteresisUpdate, RATIO_ON, VOICING_ON_DB,
      SFM_ON_MAX, QUIET_RMS_MIN, K_ON]

/-- **C3 (amended).** Per-block decisions of the voice detectors: in the
mic-only sketch and `loopMicrophone` (the `micOnGate`/`micOffGate`
variants), for a block at or above the RMS noise floor the "on" decision
holds exactly when at least two of the three feature thresholds agree
and the "off" decision holds exactly when any single looser threshold is
crossed; in `VoiceTask` the "on" decision instead requires all three
thresholds (the "off" decision is the same any-single rule); and in all
three variants, a block whose RMS is below the noise floor leaves the
detector inactive after processing, regardless of the other features. -/
theorem voice_block_decision :
    (∀ f : VoiceFeat, QUIET_RMS_MIN ≤ f.rms →
        (micOnGate f = true ↔ atLeastTwoOn f)) ∧
    (∀ f : VoiceFeat, QUIET_RMS_MIN ≤ f.rms →
        (micOffGate f = true ↔
          (f.ratio ≤ RATIO_OFF ∨ f.voicingDb ≤ VOICING_OFF_DB ∨ SFM_OFF_MIN ≤ f.sfm))) ∧
    (∀ f : VoiceFeat,
        (taskOnGate f = true ↔
          (RATIO_ON ≤ f.ratio ∧ VOICING_ON_DB ≤ f.voicingDb ∧ f.sfm ≤ SFM_ON_MAX)) ∧
        (taskOffGate f = true ↔
          (f.ratio ≤ RATIO_OFF ∨ f.voicingDb ≤ VOICING_OFF_DB ∨ SFM_OFF_MIN ≤ f.sfm))) ∧
    (∀ (s : VoiceState) (f : VoiceFeat), f.rms < QUIET_RMS_MIN →
        (voiceTaskStep s f).active = false ∧
        (micSketchStep s f).active = false ∧
        (loopMicrophoneStep s f).active = false) := by
  refine ⟨fun f h => ?_, fun f h => ?_, fun f => ⟨?_, ?_⟩, fun s f h => ?_⟩
  · unfold micOnGate onVotes atLeastTwoOn
    by_cases h1 : RATIO_ON ≤ f.ratio <;> by_cases h2 : VOICING_ON_DB ≤ f.voicingDb <;>
      by_cases h3 : f.sfm ≤ SFM_ON_MAX <;> simp [h, h1, h2, h3]
  · have h' : ¬ f.rms < QUIET_RMS_MIN := not_lt.mpr h
    simp [micOffGate, h', or_assoc]
  · simp [taskOnGate, and_assoc]
  · simp [taskOffGate, or_assoc]
  · have h' : ¬ QUIET_RMS_MIN ≤ f.rms := not_le.mpr h
    have hgate : micOnGate f = false := by simp [micOnGate, h']
    cases hs : s.active <;>
      simp [voiceTaskStep, micSketchStep, loopMicrophoneStep, hysteresisUpdate,
        h, hgate, hs]

/-- Witness for C3 (amended) at concrete blocks: a 2-of-3 block above
the floor turns the mic gate on, and a sub-floor block forces all three
detectors inactive from the active state. -/
theorem voice_block_decision_witness :
    micOnGate (VoiceFeat.mk 90000 0.7 3 0.7) = true ∧
    (voiceTaskStep ⟨true, 0, 0⟩ (VoiceFeat.mk 10 0.9 9 0.1)).active = false ∧
    (micSketchStep ⟨true, 0, 0⟩ (VoiceFeat.mk 10 0.9 9 0.1)).active = false ∧
    (loopMicrophoneStep ⟨true, 0, 0⟩ (VoiceFeat.mk 10 0.9 9 0.1)).active = false := by
  refine ⟨?_, ?_, ?_, ?_⟩
  · exact (voice_block_decision.1 (VoiceFeat.mk 90000 0.7 3 0.7)
      (by norm_num [QUIET_RMS_MIN])).mpr
      (Or.inl ⟨by norm_num [RATIO_ON], by norm_num [VOICING_ON_DB]⟩)
  · exact (voice_block_decision.2.2.2 ⟨true, 0, 0⟩ (VoiceFeat.mk 10 0.9 9 0.1)
      (by norm_num [QUIET_RMS_MIN])).1
  · exact (voice_block_decision.2.2.2 ⟨true, 0, 0⟩ (VoiceFeat.mk 10 0.9 9 0.1)
      (by norm_num [QUIET_RMS_MIN])).2.1
  · exact (voice_block_decision.2.2.2 ⟨true, 0, 0⟩ (VoiceFeat.mk 10 0.9 9 0.1)
      (by norm_num [QUIET_RMS_MIN])).2.2

/-- Counterexample to C5 as stated: with the trace on-block, sub-floor
block, on-block, neither maximal run of blocks whose "on" decision holds
reaches `K_ON = 2`, and the middle block's on decision is false in every
variant — yet both `VoiceTask` and `loopMicrophone` end up ACTIVE,
because their quiet branch skips the hysteresis and leaves the
accumulated `upCnt` streak intact across the interruption.  (The
mic-only sketch, whose quiet branch still runs the hysteresis, stays
inactive.) -/
theorem voice_hysteresis_counterexample :
    taskOnGate (VoiceFeat.mk 0 0 0 1) = false ∧
    micOnGate (VoiceFeat.mk 0 0 0 1) = false ∧
    (List.foldl voiceTaskStep ⟨false, 0, 0⟩
        [VoiceFeat.mk 100000 0.7 3 0.5, VoiceFeat.mk 0 0 0 1,
         VoiceFeat.mk 100000 0.7 3 0.5]).active = true ∧
    (List.foldl loopMicrophoneStep ⟨false, 0, 0⟩
        [VoiceFeat.mk 100000 0.7 3 0.5, VoiceFeat.mk 0 0 0 1,
         VoiceFeat.mk 100000 0.7 3 0.5]).active = true ∧
    (List.foldl micSketchStep ⟨false, 0, 0⟩
        [VoiceFeat.mk 100000 0.7 3 0.5, VoiceFeat.mk 0 0 0 1,
         VoiceFeat.mk 100000 0.7 3 0.5]).active = false := by
  refine ⟨?_, ?_, ?_, ?_, ?_⟩ <;>
    norm_num [taskOnGate, taskOffGate, micOnGate, micOffGate, onVotes,
      voiceTaskStep, loopMicrophoneStep, micSketchStep, hysteresisUpdate,
      RATIO_ON, RATIO_OFF, VOICING_ON_DB, VOICING_OFF_DB, SFM_ON_MAX,
      SFM_OFF_MIN, QUIET_RMS_MIN, K_ON, K_OFF]

/-- **C5 (amended).** With streak counters starting at zero, in each of
the three embedded detectors (`VoiceTask`, `loopMicrophone`, and the
mic-only sketch): exactly `K_ON = 2` consecutive on-blocks at or above
the noise floor activate the detector (one such block does not); exactly
`K_OFF = 4` consecutive off-blocks at or above the floor deactivate it
(three do not); and a run interrupted by a non-qualifying block AT OR
ABOVE the noise floor causes no transition and resets the streak to
zero.  (Sub-floor blocks are governed by the noise-floor rule instead:
they force the detector inactive immediately, and in
`VoiceTask`/`loopMicrophone` they leave the on-streak intact, so the
no-transition guarantee does not extend to sub-floor interruptions
there; the mic-only sketch's quiet branch resets the streak, so it
satisfies the interruption clause for ANY non-qualifying block —
sub-floor included — and its off-side non-qualifying blocks are above
the floor by construction, since a sub-floor block qualifies as "off".) -/
theorem voice_hysteresis :
    (∀ (d : Nat) (f1 f2 : VoiceFeat),
        QUIET_RMS_MIN ≤ f1.rms → QUIET_RMS_MIN ≤ f2.rms →
        taskOnGate f1 = true → taskOnGate f2 = true →
        voiceTaskStep ⟨false, 0, d⟩ f1 = ⟨false, 1, d⟩ ∧
        (voiceTaskStep ⟨false, 1, d⟩ f2).active = true) ∧
    (∀ (s : VoiceState) (g : VoiceFeat),
        s.active = false → QUIET_RMS_MIN ≤ g.rms → taskOnGate g = false →
        voiceTaskStep s g = ⟨false, 0, s.downCnt⟩) ∧
    (∀ (u : Nat) (f1 f2 f3 f4 : VoiceFeat),
        (∀ f ∈ [f1, f2, f3, f4], QUIET_RMS_MIN ≤ f.rms ∧ taskOffGate f = true) →
        voiceTaskStep ⟨true, u, 0⟩ f1 = ⟨true, u, 1⟩ ∧
        voiceTaskStep ⟨true, u, 1⟩ f2 = ⟨true, u, 2⟩ ∧
        voiceTaskStep ⟨true, u, 2⟩ f3 = ⟨true, u, 3⟩ ∧
        voiceTaskStep ⟨true, u, 3⟩ f4 = ⟨false, 0, 4⟩) ∧
    (∀ (s : VoiceState) (g : VoiceFeat),
        s.active = true → QUIET_RMS_MIN ≤ g.rms → taskOffGate g = false →
        voiceTaskStep s g = ⟨true, s.upCnt, 0⟩) ∧
    (∀ (d : Nat) (f1 f2 : VoiceFeat),
        micOnGate f1 = true → micOnGate f2 = true →
        loopMicrophoneStep ⟨false, 0, d⟩ f1 = ⟨false, 1, d⟩ ∧
        (loopMicrophoneStep ⟨false, 1, d⟩ f2).active = true) ∧
    (∀ (s : VoiceState) (f : VoiceFeat),
        f.rms < QUIET_RMS_MIN → micSketchStep s f = ⟨false, 0, s.downCnt⟩) ∧
    (∀ (u : Nat) (f1 f2 f3 f4 : VoiceFeat),
        (∀ f ∈ [f1, f2, f3, f4], QUIET_RMS_MIN ≤ f.rms ∧ micOffGate f = true) →
        loopMicrophoneStep ⟨true, u, 0⟩ f1 = ⟨true, u, 1⟩ ∧
        loopMicrophoneStep ⟨true, u, 1⟩ f2 = ⟨true, u, 2⟩ ∧
        loopMicrophoneStep ⟨true, u, 2⟩ f3 = ⟨true, u, 3⟩ ∧
        loopMicrophoneStep ⟨true, u, 3⟩ f4 = ⟨false, 0, 4⟩) ∧
    (∀ (s : VoiceState) (g : VoiceFeat),
        s.active = true → micOffGate g = false →
        loopMicrophoneStep s g = ⟨true, s.upCnt, 0⟩) ∧
    (∀ (s : VoiceState) (g : VoiceFeat),
        s.active = false → QUIET_RMS_MIN ≤ g.rms → micOnGate g = false →
        loopMicrophoneStep s g = ⟨false, 0, s.downCnt⟩) ∧
    (∀ (d : Nat) (f1 f2 : VoiceFeat),
        micOnGate f1 = true → micOnGate f2 = true →
        micSketchStep ⟨false, 0, d⟩ f1 = ⟨false, 1, d⟩ ∧
        (micSketchStep ⟨false, 1, d⟩ f2).active = true) ∧
    (∀ (s : VoiceState) (g : VoiceFeat),
        s.active = false → micOnGate g = false →
        micSketchStep s g = ⟨false, 0, s.downCnt⟩) ∧
    (∀ (u : Nat) (f1 f2 f3 f4 : VoiceFeat),
        (∀ f ∈ [f1, f2, f3, f4], QUIET_RMS_MIN ≤ f.rms ∧ micOffGate f = true) →
        micSketchStep ⟨true, u, 0⟩ f1 = ⟨true, u, 1⟩ ∧
        micSketchStep ⟨true, u, 1⟩ f2 = ⟨true, u, 2⟩ ∧
        micSketchStep ⟨true, u, 2⟩ f3 = ⟨true, u, 3⟩ ∧
        micSketchStep ⟨true, u, 3⟩ f4 = ⟨false, 0, 4⟩) ∧
    (∀ (s : VoiceState) (g : VoiceFeat),
        s.active = true → micOffGate g = false →
        micSketchStep s g = ⟨true, s.upCnt, 0⟩) := by
  refine ⟨fun d f1 f2 h1 h2 hOn1 hOn2 => ⟨?_, ?_⟩, fun s g hs hq hOn => ?_,
    fun u f1 f2 f3 f4 h => ⟨?_, ?_, ?_, ?_⟩, fun s g hs hq hOff => ?_,
    fun d f1 f2 hOn1 hOn2 => ⟨?_, ?_⟩, fun s f h => ?_,
    fun u f1 f2 f3 f4 h => ⟨?_, ?_, ?_, ?_⟩, fun s g hs hOff => ?_,
    fun s g hs hq hOn => ?_, fun d f1 f2 hOn1 hOn2 => ⟨?_, ?_⟩,
    fun s g hs hOn => ?_, fun u f1 f2 f3 f4 h => ⟨?_, ?_, ?_, ?_⟩,
    fun s g hs hOff => ?_⟩
  · simp [voiceTaskStep, hysteresisUpdate, not_lt.mpr h1, hOn1, K_ON]
  · simp [voiceTaskStep, hysteresisUpdate, not_lt.mpr h2, hOn2, K_ON]
  · cases s with
    | mk a u dn =>
        subst hs
        simp [voiceTaskStep, hysteresisUpdate, not_lt.mpr hq, hOn]
  · have := h f1 (by simp)
    simp [voiceTaskStep, hysteresisUpdate, not_lt.mpr this.1, this.2, K_OFF]
  · have := h f2 (by simp)
    simp [voiceTaskStep, hysteresisUpdate, not_lt.mpr this.1, this.2, K_OFF]
  · have := h f3 (by simp)
    simp [voiceTaskStep, hysteresisUpdate, not_lt.mpr this.1, this.2, K_OFF]
  · have := h f4 (by simp)
    simp [voiceTaskStep, hysteresisUpdate, not_lt.mpr this.1, this.2, K_OFF]
  · cases s with
    | mk a u dn =>
        subst hs
        simp [voiceTaskStep, hysteresisUpdate, not_lt.mpr hq, hOff]
  · have h1' : QUIET_RMS_MIN ≤ f1.rms := by
      have := hOn1
      simp only [micOnGate, Bool.and_eq_true, decide_eq_true_eq] at this
      exact this.2
    simp [loopMicrophoneStep, hysteresisUpdate, not_lt.mpr h1', hOn1, K_ON]
  · have h2' : QUIET_RMS_MIN ≤ f2.rms := by
      have := hOn2
      simp only [micOnGate, Bool.and_eq_true, decide_eq_true_eq] at this
      exact this.2
    simp [loopMicrophoneStep, hysteresisUpdate, not_lt.mpr h2', hOn2, K_ON]
  · have hgate : micOnGate f = false := by
      simp [micOnGate, not_le.mpr h]
    cases s with
    | mk a u dn =>
        cases a <;> simp [micSketchStep, hysteresisUpdate, h, hgate]
  · have := h f1 (by simp)
    simp [loopMicrophoneStep, hysteresisUpdate, not_lt.mpr this.1, this.2, K_OFF]
  · have := h f2 (by simp)
    simp [loopMicrophoneStep, hysteresisUpdate, not_lt.mpr this.1, this.2, K_OFF]
  · have := h f3 (by simp)
    simp [loopMicrophoneStep, hysteresisUpdate, not_lt.mpr this.1, this.2, K_OFF]
  · have := h f4 (by simp)
    simp [loopMicrophoneStep, hysteresisUpdate, not_lt.mpr this.1, this.2, K_OFF]
  · have hq : ¬ (g.rms < QUIET_RMS_MIN) := by
      have h' := hOff
      simp only [micOffGate, Bool.or_eq_false_iff, decide_eq_false_iff_not] at h'
      exact h'.2
    cases s with
    | mk a u dn =>
        subst hs
        simp [loopMicrophoneStep, hysteresisUpdate, hq, hOff]
  · cases s with
    | mk a u dn =>
        subst hs
        simp [loopMicrophoneStep, hysteresisUpdate, not_lt.mpr hq, hOn]
  · have h1' : QUIET_RMS_MIN ≤ f1.rms := by
      have := hOn1
      simp only [micOnGate, Bool.and_eq_true, decide_eq_true_eq] at this
      exact this.2
    simp [micSketchStep, hysteresisUpdate, not_lt.mpr h1', hOn1, K_ON]
  · have h2' : QUIET_RMS_MIN ≤ f2.rms := by
      have := hOn2
      simp only [micOnGate, Bool.and_eq_true, decide_eq_true_eq] at this
      exact this.2
    simp [micSketchStep, hysteresisUpdate, not_lt.mpr h2', hOn2, K_ON]
  · cases s with
    | mk a u dn =>
        subst hs
        by_cases hq : g.rms < QUIET_RMS_MIN <;>
          simp [micSketchStep, hysteresisUpdate, hq, hOn]
  · have := h f1 (by simp)
    simp [micSketchStep, hysteresisUpdate, not_lt.mpr this.1, this.2, K_OFF]
  · have := h f2 (by simp)
    simp [micSketchStep, hysteresisUpdate, not_lt.mpr this.1, this.2, K_OFF]
  · have := h f3 (by simp)
    simp [micSketchStep, hysteresisUpdate, not_lt.mpr this.1, this.2, K_OFF]
  · have := h f4 (by simp)
    simp [micSketchStep, hysteresisUpdate, not_lt.mpr this.1, this.2, K_OFF]
  · have hq : ¬ (g.rms < QUIET_RMS_MIN) := by
      have h' := hOff
      simp only [micOffGate, Bool.or_eq_false_iff, decide_eq_false_iff_not] at h'
      exact h'.2
    cases s with
    | mk a u dn =>
        subst hs
        simp [micSketchStep, hysteresisUpdate, hq, hOff]

/-- Witness for C5 (amended) at concrete blocks: two on-blocks activate
`VoiceTask` (one does not), a clean above-floor neutral block resets the
on-streak without a transition, four off-blocks deactivate; the
fourth off-block also deactivates `loopMicrophone`, two on-blocks
activate the mic-only sketch, and an above-floor neutral block resets
the sketch's off-streak without a transition. -/
theorem voice_hysteresis_witness :
    voiceTaskStep ⟨false, 0, 0⟩ (VoiceFeat.mk 100000 0.7 3 0.5) = ⟨false, 1, 0⟩ ∧
    (voiceTaskStep ⟨false, 1, 0⟩ (VoiceFeat.mk 100000 0.7 3 0.5)).active = true ∧
    voiceTaskStep ⟨false, 1, 5⟩ (VoiceFeat.mk 100000 0.55 2 0.7) = ⟨false, 0, 5⟩ ∧
    voiceTaskStep ⟨true, 0, 3⟩ (VoiceFeat.mk 100000 0.1 0 0.9) = ⟨false, 0, 4⟩ ∧
    loopMicrophoneStep ⟨true, 0, 3⟩ (VoiceFeat.mk 100000 0.1 0 0.9) = ⟨false, 0, 4⟩ ∧
    micSketchStep ⟨false, 0, 0⟩ (VoiceFeat.mk 100000 0.7 3 0.5) = ⟨false, 1, 0⟩ ∧
    (micSketchStep ⟨false, 1, 0⟩ (VoiceFeat.mk 100000 0.7 3 0.5)).active = true ∧
    micSketchStep ⟨true, 2, 3⟩ (VoiceFeat.mk 100000 0.55 2 0.7) = ⟨true, 2, 0⟩ := by
  have hon : taskOnGate (VoiceFeat.mk 100000 0.7 3 0.5) = true := by
    norm_num [taskOnGate, RATIO_ON, VOICING_ON_DB, SFM_ON_MAX]
  have honm : micOnGate (VoiceFeat.mk 100000 0.7 3 0.5) = true := by
    norm_num [micOnGate, onVotes, RATIO_ON, VOICING_ON_DB, SFM_ON_MAX,
      QUIET_RMS_MIN]
  have hoffm : ∀ f ∈ [VoiceFeat.mk 100000 0.1 0 0.9, VoiceFeat.mk 100000 0.1 0 0.9,
      VoiceFeat.mk 100000 0.1 0 0.9, VoiceFeat.mk 100000 0.1 0 0.9],
      QUIET_RMS_MIN ≤ f.rms ∧ micOffGate f = true := by
    intro f hf
    simp only [List.mem_cons, List.not_mem_nil, or_false] at hf
    rcases hf with h | h | h | h <;> subst h <;>
      exact ⟨by norm_num [QUIET_RMS_MIN], by norm_num [micOffGate, RATIO_OFF]⟩
  refine ⟨?_, ?_, ?_, ?_, ?_, ?_, ?_, ?_⟩
  · exact (voice_hysteresis.1 0 (VoiceFeat.mk 100000 0.7 3 0.5)
      (VoiceFeat.mk 100000 0.7 3 0.5) (by norm_num [QUIET_RMS_MIN])
      (by norm_num [QUIET_RMS_MIN]) hon hon).1
  · exact (voice_hysteresis.1 0 (VoiceFeat.mk 100000 0.7 3 0.5)
      (VoiceFeat.mk 100000 0.7 3 0.5) (by norm_num [QUIET_RMS_MIN])
      (by norm_num [QUIET_RMS_MIN]) hon hon).2
  · exact voice_hysteresis.2.1 ⟨false, 1, 5⟩ (VoiceFeat.mk 100000 0.55 2 0.7)
      rfl (by norm_num [QUIET_RMS_MIN])
      (by norm_num [taskOnGate, RATIO_ON, VOICING_ON_DB, SFM_ON_MAX])
  · exact (voice_hysteresis.2.2.1 0 (VoiceFeat.mk 100000 0.1 0 0.9)
      (VoiceFeat.mk 100000 0.1 0 0.9) (VoiceFeat.mk 100000 0.1 0 0.9)
      (VoiceFeat.mk 100000 0.1 0 0.9)
      (by intro f hf
          simp only [List.mem_cons, List.not_mem_nil, or_false] at hf
          rcases hf with h | h | h | h <;> subst h <;>
            exact ⟨by norm_num [QUIET_RMS_MIN],
              by norm_num [taskOffGate, RATIO_OFF]⟩)).2.2.2
  · exact (voice_hysteresis.2.2.2.2.2.2.1 0 (VoiceFeat.mk 100000 0.1 0 0.9)
      (VoiceFeat.mk 100000 0.1 0 0.9) (VoiceFeat.mk 100000 0.1 0 0.9)
      (VoiceFeat.mk 100000 0.1 0 0.9) hoffm).2.2.2
  · exact (voice_hysteresis.2.2.2.2.2.2.2.2.2.1 0 (VoiceFeat.mk 100000 0.7 3 0.5)
      (VoiceFeat.mk 100000 0.7 3 0.5) honm honm).1
  · exact (voice_hysteresis.2.2.2.2.2.2.2.2.2.1 0 (VoiceFeat.mk 100000 0.7 3 0.5)
      (VoiceFeat.mk 100000 0.7 3 0.5) honm honm).2
  · exact voice_hysteresis.2.2.2.2.2.2.2.2.2.2.2.2 ⟨true, 2, 3⟩
      (VoiceFeat.mk 100000 0.55 2 0.7) rfl
      (by norm_num [micOffGate, RATIO_OFF, VOICING_OFF_DB, SFM_OFF_MIN,
        QUIET_RMS_MIN])

/-! ## Ultrasonic occupancy (`ultrasonic_sensors.ino`)

Per zone: `readSensor` takes a 3-sample burst (each `pulseIn` echo
duration, 0 on timeout), averages the valid (positive-duration) samples
and returns 0 if none were valid; `movingAverage` pushes the averaged
raw reading into a 3-slot circular buffer and returns the buffer mean;
calibration fixes `baseline` (mean of 5 reads) and
`triggerThreshold = baseline - BUFFER`; a zone is occupied when its
smoothed distance is positive and at most the threshold; density is the
occupied count over `SENSOR_COUNT`. -/

/-- `SENSOR_COUNT = 3`. -/
def SENSOR_COUNT : Nat := 3

/-- `MOVING_AVG_SIZE = 3`. -/
def MOVING_AVG_SIZE : Nat := 3

/-- `BUFFER = 0.2` cm — the margin below the calibrated baseline. -/
def BUFFER : ℚ := 0.2

/-- The body of `readSensor`'s sampling loop: a sample with
`duration > 0` adds `duration * 0.034 / 2.0` to `total` and bumps
`validCount`; a timed-out sample (duration 0) is skipped. -/
def readSensorAccum (p : ℚ × Nat) (duration : Nat) : ℚ × Nat :=
  if 0 < duration then (p.1 + (duration : ℚ) * 0.034 / 2, p.2 + 1) else p

/-- `readSensor`: loop over the burst accumulating `total` and
`validCount`; return 0 if no sample was valid, else
`total / validCount`. -/
def readSensor (durations : List Nat) : ℚ :=
  let acc := durations.foldl readSensorAccum (0, 0)
  if acc.2 = 0 then 0 else acc.1 / acc.2

/-- `readUltrasonicSensor` of the integrated sketch: single pulse,
sentinel 0 on timeout, otherwise `duration * 0.034 / 2` truncated to
`int` by the C return conversion. -/
def readUltrasonicSensor (duration : Nat) : Int :=
  if duration = 0 then 0 else Int.floor ((duration : ℚ) * 0.034 / 2)

/-- One zone's full state: circular buffer + index, calibration results,
and the last smoothed distance / occupancy flag. -/
structure Zone where
  buf : List ℚ
  bufIdx : Nat
  baseline : ℚ
  triggerThreshold : ℚ
  sensorDistance : ℚ
  state : Bool

/-- `movingAverage`: write the new reading at the current buffer slot,
advance the index mod `MOVING_AVG_SIZE`, return the mean of the whole
buffer (divided by `MOVING_AVG_SIZE` as in the source) together with the
updated buffer and index. -/
def movingAverage (buf : List ℚ) (bufIdx : Nat) (newReading : ℚ) :
    ℚ × List ℚ × Nat :=
  let buf1 := buf.set bufIdx newReading
  (buf1.foldl (· + ·) 0 / (MOVING_AVG_SIZE : ℚ), buf1,
    (bufIdx + 1) % MOVING_AVG_SIZE)

/-- `calibrateSensors` for one zone, fed the 5 `readSensor` results:
`baseline = total / samples`, `triggerThreshold = baseline - BUFFER`,
buffer pre-filled with the baseline. -/
def calibrateZone (sampleReads : List ℚ) : Zone :=
  let baseline := sampleReads.foldl (· + ·) 0 / 5
  { buf := List.replicate MOVING_AVG_SIZE baseline, bufIdx := 0,
    baseline := baseline, triggerThreshold := baseline - BUFFER,
    sensorDistance := 0, state := false }

/-- The per-zone body of `readAllSensors`:
`sensorDistances[i] = movingAverage(i, rawReading)` and
`sensorStates[i] = (sensorDistances[i] > 0 && sensorDistances[i] <= triggerThreshold[i])`. -/
def zoneUpdate (z : Zone) (rawReading : ℚ) : Zone :=
  let avg := (movingAverage z.buf z.bufIdx rawReading).1
  let buf1 := (movingAverage z.buf z.bufIdx rawReading).2.1
  let idx1 := (movingAverage z.buf z.bufIdx rawReading).2.2
  { z with
    buf := buf1, bufIdx := idx1, sensorDistance := avg,
    state := decide (0 < avg) && decide (avg ≤ z.triggerThreshold) }

/-- `readAllSensors` over all zones, one raw reading each. -/
def readAllSensors (zones : List Zone) (raws : List ℚ) : List Zone :=
  List.zipWith zoneUpdate zones raws

/-- `calculateDensity`: count of occupied zones over `SENSOR_COUNT`. -/
def calculateDensity (zones : List Zone) : ℚ :=
  ((zones.countP fun z => z.state : Nat) : ℚ) / (SENSOR_COUNT : ℚ)

/-- The `readSensor` accumulator loop computes the running sum of the
converted valid samples and the running valid count. -/
theorem readSensor_foldl_spec (l : List Nat) (q : ℚ) (k : Nat) :
    l.foldl readSensorAccum (q, k)
    = (q + ((l.filter (fun d : Nat => 0 < d)).map
          (fun d : Nat => (d : ℚ) * 0.034 / 2)).sum,
       k + (l.filter (fun d : Nat => 0 < d)).length) := by
  induction l generalizing q k with
  | nil => simp
  | cons d t ih =>
      by_cases h : 0 < d
      · simp [readSensorAccum, h, ih, Prod.ext_iff]
        constructor
        · ring
        · omega
      · simp [readSensorAccum, h, ih]

/-- **C8.** An ultrasonic echo timeout inside a sampling burst (a zero
`pulseIn` duration) is excluded from the zone's average: `readSensor`
returns the mean of the converted positive-duration samples, and the
sentinel 0 — not an error — when every sample of the burst timed out;
the integrated sketch's single-sample reader likewise maps a timeout to
the sentinel 0. -/
theorem ultrasonic_timeout_handling :
    (∀ durations : List Nat,
        readSensor durations =
          if (durations.filter (fun d : Nat => 0 < d)).length = 0 then 0
          else ((durations.filter (fun d : Nat => 0 < d)).map
                  (fun d : Nat => (d : ℚ) * 0.034 / 2)).sum
                / ((durations.filter (fun d : Nat => 0 < d)).length : ℚ)) ∧
    (∀ durations : List Nat, (∀ d ∈ durations, d = 0) →
        readSensor durations = 0) ∧
    readUltrasonicSensor 0 = 0 := by
  have key : ∀ durations : List Nat,
      readSensor durations =
        if (durations.filter (fun d : Nat => 0 < d)).length = 0 then 0
        else ((durations.filter (fun d : Nat => 0 < d)).map
                (fun d : Nat => (d : ℚ) * 0.034 / 2)).sum
              / ((durations.filter (fun d : Nat => 0 < d)).length : ℚ) := by
    intro durations
    unfold readSensor
    rw [readSensor_foldl_spec]
    simp
  refine ⟨key, fun durations h => ?_, rfl⟩
  rw [key]
  have hnil : durations.filter (fun d : Nat => 0 < d) = [] := by
    rw [List.filter_eq_nil_iff]
    intro d hd
    simp [h d hd]
  simp [hnil]

/-- Witness for C8: a burst with one timeout averages only the two valid
samples; an all-timeout burst yields the sentinel 0. -/
theorem ultrasonic_timeout_handling_witness :
    readSensor [1000, 0, 2000] = (17 + 34) / 2 ∧
    readSensor [0, 0, 0] = 0 := by
  constructor
  · rw [ultrasonic_timeout_handling.1 [1000, 0, 2000]]
    norm_num
  · exact ultrasonic_timeout_handling.2.1 [0, 0, 0] (by decide)

/-- **C6.** Calibration sets `triggerThreshold = baseline - BUFFER`; a
zone's per-cycle update makes `sensorDistance` the mean of the updated
3-slot moving-average buffer and sets the occupancy flag exactly when
that smoothed distance is strictly positive and at most the (unchanged)
threshold; and for a full complement of `SENSOR_COUNT` zones the density
equals the occupied-zone count divided by the number of zones. -/
theorem occupancy_threshold_density :
    (∀ reads : List ℚ,
        (calibrateZone reads).triggerThreshold
          = (calibrateZone reads).baseline - BUFFER) ∧
    (∀ (z : Zone) (raw : ℚ),
        (zoneUpdate z raw).sensorDistance
          = (z.buf.set z.bufIdx raw).foldl (· + ·) 0 / (MOVING_AVG_SIZE : ℚ) ∧
        (zoneUpdate z raw).triggerThreshold = z.triggerThreshold ∧
        ((zoneUpdate z raw).state = true ↔
          0 < (zoneUpdate z raw).sensorDistance ∧
          (zoneUpdate z raw).sensorDistance ≤ z.triggerThreshold)) ∧
    (∀ zones : List Zone, zones.length = SENSOR_COUNT →
        calculateDensity zones
          = ((zones.countP fun z => z.state : Nat) : ℚ) / (zones.length : ℚ)) := by
  refine ⟨fun reads => rfl, fun z raw => ⟨rfl, rfl, ?_⟩, fun zones h => ?_⟩
  · simp [zoneUpdate, movingAverage, Bool.and_eq_true, decide_eq_true_eq]
  · rw [calculateDensity, h]

/-- Witness for C6: baseline 100 gives threshold 99.8; a smoothed 60
against threshold 80 is occupied, a smoothed 95 is not; three zones with
two occupied give density 2/3. -/
theorem occupancy_threshold_density_witness :
    (calibrateZone [100, 100, 100, 100, 100]).triggerThreshold = 99.8 ∧
    (zoneUpdate ⟨[60, 60, 60], 0, 100, 80, 0, false⟩ 60).state = true ∧
    (zoneUpdate ⟨[95, 95, 95], 0, 100, 80, 0, false⟩ 95).state = false ∧
    calculateDensity
        [⟨[], 0, 0, 0, 60, true⟩, ⟨[], 0, 0, 0, 70, true⟩, ⟨[], 0, 0, 0, 95, false⟩]
      = 2 / 3 := by
  refine ⟨?_, ?_, ?_, ?_⟩
  · rw [occupancy_threshold_density.1 [100, 100, 100, 100, 100]]
    norm_num [calibrateZone, BUFFER]
  · exact ((occupancy_threshold_density.2.1 ⟨[60, 60, 60], 0, 100, 80, 0, false⟩ 60).2.2).mpr
      (by rw [(occupancy_threshold_density.2.1 ⟨[60, 60, 60], 0, 100, 80, 0, false⟩ 60).1]
          norm_num [MOVING_AVG_SIZE])
  · have hiff := (occupancy_threshold_density.2.1 ⟨[95, 95, 95], 0, 100, 80, 0, false⟩ 95).2.2
    have hd := (occupancy_threshold_density.2.1 ⟨[95, 95, 95], 0, 100, 80, 0, false⟩ 95).1
    rw [Bool.eq_false_iff, Ne, hiff, hd]
    norm_num [MOVING_AVG_SIZE]
  · rw [occupancy_threshold_density.2.2 _ (by decide)]
    norm_num [List.countP_cons, SENSOR_COUNT]

/-! ## Announcement arbitration (actuator sketch)

`handleAudioLogic` runs every loop: while a track plays it only pumps
the decoder; when idle under full capacity it (re)starts the dedicated
warning track at most once per 5000 ms; when idle under normal state it
plays the next playlist track round-robin.  The prediction handler flips
`isFullCapacity` from the predicted capacity (`> 15`); on the transition
into full it stops any current track and force-plays the warning.
`mp3->isRunning()` / `!mp3->loop()` become the `running` flag and the
`trackFinished` input. -/

/-- The dedicated full-capacity warning track. -/
def warningTrack : String := "/MP3/fullcapacity.mp3"

/-- The `normalFiles[]` rotation playlist. -/
def normalFiles : List String :=
  ["/MP3/bus3min.mp3", "/MP3/bus1min.mp3", "/MP3/busbreakdown.mp3"]

/-- The actuator's audio-relevant state: `audioAvailable` (SD present),
`isFullCapacity`, the player (`running` + loaded track), the warning
re-trigger timer and the playlist index. -/
structure ActuatorState where
  audioAvailable : Bool
  isFullCapacity : Bool
  running : Bool
  currentTrack : Option String
  lastWarning : Nat
  normalPlaylistIndex : Nat
  deriving Repr, DecidableEq

/-- `playFile`: stop whatever plays and start the named file. -/
def playFile (s : ActuatorState) (filename : String) : ActuatorState :=
  { s with running := true, currentTrack := some filename }

/-- `handleAudioLogic` (lines 91–118 of the actuator sketch), with the
current `millis()` and whether the running track just finished as
inputs. -/
def handleAudioLogic (s : ActuatorState) (now : Nat) (trackFinished : Bool) :
    ActuatorState :=
  if s.audioAvailable = false then s
  else if s.running then
    (if trackFinished then { s with running := false } else s)
  else if s.isFullCapacity then
    (if 5000 ≤ usub now s.lastWarning then
      { playFile s warningTrack with lastWarning := now }
    else s)
  else
    let s1 := playFile s (normalFiles.getD s.normalPlaylistIndex "")
    let idx := s1.normalPlaylistIndex + 1
    { s1 with normalPlaylistIndex := if 2 < idx then 0 else idx }

/-- The state-change fragment of `startPredictionRequest` (lines
219–248): recompute `isFullCapacity` from the predicted capacity; on the
transition into full, stop any running track and force-play the warning;
on the transition back, stop the player (normal rotation resumes in
`handleAudioLogic`). -/
def applyPrediction (s : ActuatorState) (predictedCapacity : ℚ) : ActuatorState :=
  let newState := decide (15 < predictedCapacity)
  if newState ≠ s.isFullCapacity then
    if newState then
      let s1 := { s with isFullCapacity := true }
      (if s1.audioAvailable then playFile { s1 with running := false } warningTrack
       else s1)
    else
      let s1 := { s with isFullCapacity := false }
      (if s1.audioAvailable && s1.running then { s1 with running := false } else s1)
  else s

/-- **C7.** While `isFullCapacity` holds, `handleAudioLogic` never
starts a playlist track: the loaded track is unchanged or becomes the
warning track, and the playlist index never advances; an idle player
inside the 5000 ms re-trigger window is left completely untouched (the
warning is re-started periodically, not in a tight loop); an idle player
past the window gets exactly the warning track (re)started; and the
transition into full capacity stops whatever was playing and force-plays
the warning track immediately. -/
theorem full_capacity_audio_arbitration :
    (∀ (s : ActuatorState) (now : Nat) (trackFinished : Bool),
        s.isFullCapacity = true →
        ((handleAudioLogic s now trackFinished).currentTrack = s.currentTrack ∨
         (handleAudioLogic s now trackFinished).currentTrack = some warningTrack) ∧
        (handleAudioLogic s now trackFinished).normalPlaylistIndex
          = s.normalPlaylistIndex) ∧
    (∀ (s : ActuatorState) (now : Nat) (trackFinished : Bool),
        s.isFullCapacity = true → s.running = false →
        usub now s.lastWarning < 5000 →
        handleAudioLogic s now trackFinished = s) ∧
    (∀ (s : ActuatorState) (now : Nat) (trackFinished : Bool),
        s.audioAvailable = true → s.isFullCapacity = true → s.running = false →
        5000 ≤ usub now s.lastWarning →
        handleAudioLogic s now trackFinished =
          { s with running := true, currentTrack := some warningTrack,
                   lastWarning := now }) ∧
    (∀ (s : ActuatorState) (cap : ℚ),
        s.audioAvailable = true → s.isFullCapacity = false → 15 < cap →
        applyPrediction s cap =
          { s with isFullCapacity := true, running := true,
                   currentTrack := some warningTrack }) := by
  refine ⟨fun s now fin hf => ?_, fun s now fin hf hr hw => ?_,
    fun s now fin ha hf hr hw => ?_, fun s cap ha hf hcap => ?_⟩
  · simp only [handleAudioLogic, playFile]
    split_ifs <;> simp_all
  · have hw' : ¬ (5000 ≤ usub now s.lastWarning) := not_le.mpr hw
    simp only [handleAudioLogic, playFile]
    split_ifs <;> simp_all
  · simp only [handleAudioLogic, playFile]
    split_ifs <;> simp_all
  · have h15 : decide (15 < cap) = true := decide_eq_true hcap
    simp only [applyPrediction, playFile]
    split_ifs <;> simp_all

/-- Witness for C7 at concrete states: a full-capacity idle player 1 s
after the last warning is untouched; 6 s after, the warning is
restarted; and the transition into full from a playing normal track
force-plays the warning. -/
theorem full_capacity_audio_arbitration_witness :
    handleAudioLogic ⟨true, true, false, some warningTrack, 10000, 1⟩ 11000 false
      = ⟨true, true, false, some warningTrack, 10000, 1⟩ ∧
    handleAudioLogic ⟨true, true, false, some warningTrack, 10000, 1⟩ 16000 false
      = ⟨true, true, true, some warningTrack, 16000, 1⟩ ∧
    applyPrediction ⟨true, false, true, some "/MP3/bus3min.mp3", 0, 1⟩ 20
      = ⟨true, true, true, some warningTrack, 0, 1⟩ := by
  refine ⟨?_, ?_, ?_⟩
  · exact full_capacity_audio_arbitration.2.1
      ⟨true, true, false, some warningTrack, 10000, 1⟩ 11000 false rfl rfl (by decide)
  · exact full_capacity_audio_arbitration.2.2.1
      ⟨true, true, false, some warningTrack, 10000, 1⟩ 16000 false rfl rfl rfl
      (by decide)
  · exact full_capacity_audio_arbitration.2.2.2
      ⟨true, false, true, some "/MP3/bus3min.mp3", 0, 1⟩ 20 rfl rfl (by norm_num)

/-! ## Inbound command handling

`mqttCallback` of the integrated sketch recognises exactly
`PLAY_AUDIO_1..4` (select track and play it) and `RESET_COUNT` (zero the
people count); every other payload is only logged.  `mqtt_callback` of
`smartstop_main.ino` recognises `BEEP` and `CAPTURE`, otherwise does
nothing.  `playAudio` selects the file path by a switch whose `default`
falls back to the first track (the identical switch appears in
`cs3237speaker.ino`'s `setup`). -/

/-- The track-selection switch of `playAudio` (integrated sketch) and of
`cs3237speaker.ino`'s `setup`: cases 1–4, `default` falls back to
`/MP3/bus3min.mp3`. -/
def audioFilePath (audioNum : Int) : String :=
  if audioNum = 1 then "/MP3/bus3min.mp3"
  else if audioNum = 2 then "/MP3/bus1min.mp3"
  else if audioNum = 3 then "/MP3/fullcapacity.mp3"
  else if audioNum = 4 then "/MP3/busbreakdown.mp3"
  else "/MP3/bus3min.mp3"

/-- The integrated sketch's state touched by `mqttCallback`:
`speakerEnabled`, `audioSelect`, the (float) `peopleCount` and the track
loaded into the MP3 player. -/
structure IntegState where
  speakerEnabled : Bool
  audioSelect : Int
  peopleCount : ℚ
  playingTrack : Option String
  deriving Repr, DecidableEq

/-- `playAudio`: no-op when the speaker is disabled, otherwise stop the
current playback and start the selected file. -/
def playAudio (s : IntegState) (audioNum : Int) : IntegState :=
  if s.speakerEnabled = false then s
  else { s with playingTrack := some (audioFilePath audioNum) }

/-- `mqttCallback` (integrated sketch): dispatch on the payload string;
unrecognised payloads fall through with no state change. -/
def mqttCallback (s : IntegState) (message : String) : IntegState :=
  if message = "PLAY_AUDIO_1" then playAudio { s with audioSelect := 1 } 1
  else if message = "PLAY_AUDIO_2" then playAudio { s with audioSelect := 2 } 2
  else if message = "PLAY_AUDIO_3" then playAudio { s with audioSelect := 3 } 3
  else if message = "PLAY_AUDIO_4" then playAudio { s with audioSelect := 4 } 4
  else if message = "RESET_COUNT" then { s with peopleCount := 0 }
  else s

/-- The two side effects `mqtt_callback` of `smartstop_main.ino` can
trigger. -/
inductive MainCommandAction where
  | beep
  | capture
  deriving Repr, DecidableEq

/-- `mqtt_callback` of `smartstop_main.ino`: `BEEP` plays a tone,
`CAPTURE` uploads an image, anything else only logs. -/
def mqtt_callback (message : String) : Option MainCommandAction :=
  if message = "BEEP" then some MainCommandAction.beep
  else if message = "CAPTURE" then some MainCommandAction.capture
  else none

/-- **C9.** An inbound payload that is none of the recognised command
strings mutates no state: the integrated sketch's handler returns the
state unchanged (people count, audio selection and playback untouched),
and the main sketch's handler triggers no action. -/
theorem unrecognised_command_no_mutation :
    (∀ (s : IntegState) (message : String),
        message ∉ ["PLAY_AUDIO_1", "PLAY_AUDIO_2", "PLAY_AUDIO_3",
          "PLAY_AUDIO_4", "RESET_COUNT"] →
        mqttCallback s message = s) ∧
    (∀ message : String, message ∉ ["BEEP", "CAPTURE"] →
        mqtt_callback message = none) := by
  constructor
  · intro s message h
    simp only [List.mem_cons, List.not_mem_nil, or_false, not_or] at h
    obtain ⟨h1, h2, h3, h4, h5⟩ := h
    simp [mqttCallback, h1, h2, h3, h4, h5]
  · intro message h
    simp only [List.mem_cons, List.not_mem_nil, or_false, not_or] at h
    obtain ⟨h1, h2⟩ := h
    simp [mqtt_callback, h1, h2]

/-- Witness for C9: the payload `"HELLO"` leaves a concrete state
untouched and triggers no action. -/
theorem unrecognised_command_no_mutation_witness :
    mqttCallback ⟨true, 3, 7, some "/MP3/fullcapacity.mp3"⟩ "HELLO"
      = ⟨true, 3, 7, some "/MP3/fullcapacity.mp3"⟩ ∧
    mqtt_callback "HELLO" = none :=
  ⟨unrecognised_command_no_mutation.1 ⟨true, 3, 7, some "/MP3/fullcapacity.mp3"⟩
      "HELLO" (by decide),
   unrecognised_command_no_mutation.2 "HELLO" (by decide)⟩

/-- **C10.** A track-selection number outside 1..4 falls back to the
default first track: the switch yields `/MP3/bus3min.mp3` — the same
path as selection 1 — and with the speaker enabled `playAudio` really
starts that track rather than failing or playing nothing. -/
theorem audio_selection_fallback :
    (∀ audioNum : Int, ¬ (1 ≤ audioNum ∧ audioNum ≤ 4) →
        audioFilePath audioNum = "/MP3/bus3min.mp3" ∧
        audioFilePath audioNum = audioFilePath 1) ∧
    (∀ (s : IntegState) (audioNum : Int),
        s.speakerEnabled = true → ¬ (1 ≤ audioNum ∧ audioNum ≤ 4) →
        (playAudio s audioNum).playingTrack = some "/MP3/bus3min.mp3") := by
  have key : ∀ audioNum : Int, ¬ (1 ≤ audioNum ∧ audioNum ≤ 4) →
      audioFilePath audioNum = "/MP3/bus3min.mp3" := by
    intro n h
    have h1 : n ≠ 1 := by omega
    have h2 : n ≠ 2 := by omega
    have h3 : n ≠ 3 := by omega
    have h4 : n ≠ 4 := by omega
    simp [audioFilePath, h1, h2, h3, h4]
  refine ⟨fun n h => ⟨key n h, ?_⟩, fun s n hs h => ?_⟩
  · rw [key n h]
    rfl
  · simp [playAudio, hs, key n h]

/-- Witness for C10: selections 0 and 7 both play the first track. -/
theorem audio_selection_fallback_witness :
    audioFilePath 0 = "/MP3/bus3min.mp3" ∧
    (playAudio ⟨true, 3, 0, none⟩ 7).playingTrack = some "/MP3/bus3min.mp3" :=
  ⟨(audio_selection_fallback.1 0 (by omega)).1,
   audio_selection_fallback.2 ⟨true, 3, 0, none⟩ 7 rfl (by omega)⟩
